import Mathlib

/-!
Shallow embedding of the vcpipe MultiQC module
(src/multiqc/modules/vcpipe/vcpipe.py): the log-section parsing and
aggregation engine.  Python dicts are modeled as association lists whose
`dput` operation updates the first matching key in place and appends new
keys at the end (Python 3.7+ insertion-order semantics); `collections.Counter`
over a list is modeled by a left fold of `bump`; the three parse methods,
`parse_log`, the `__init__` driver loop, and `region_cat` are translated
directly from the source.
-/

/-- A scalar JSON value as it appears in the module's dicts: integers
(statuses, counts, depths), floats (quality ratios, modeled as rationals),
and strings. -/
inductive Val : Type where
  | int : Int → Val
  | rat : Rat → Val
  | str : String → Val
deriving DecidableEq

/-- One failed low-coverage region, an element of `data["failed"]`:
`{start, stop, depth}`. -/
structure Region where
  start : Int
  stop : Int
  depth : Int
deriving DecidableEq

/-- A decoded input JSON document (the result of `json.loads(log_file["f"])`)
restricted to the three keys the module reads.  A field is `none` exactly when
`raw_data.get(key) is not None` is false in the source, i.e. the key is absent
or its value is null.  A present section is the 2-element array
`[status, data]`; for `LowCoverageRegions` the inner `Option (List Region)` is
`none` exactly when `data.get("failed") is not None` is false. -/
structure Document where
  VcfQuality : Option (Int × List (String × Val))
  LowCoverageRegions : Option (Int × Option (List Region))
  BaseQuality : Option (Int × List (String × Val))
deriving DecidableEq

/-- A discovered log file: its directory path `f["root"]` and its decoded
JSON body (JSON text decoding itself is done by the external `json` library). -/
structure LogFile where
  root : String
  body : Document
deriving DecidableEq

/-- The mutable per-run state of `MultiqcModule` relevant to parsing and
aggregation.  `vcpipe_lowcoverage_data` models the Python dict
`dict(depth=dict(), size=dict())`: an outer dict from the two fixed keys to
inner per-sample dicts of counters (counter keys are `Val.int` depth values
for `"depth"` and `Val.str` bucket names for `"size"`). -/
structure State where
  general_stats_header : List (String × String)
  general_stats_data : List (String × List (String × Val))
  vcpipe_seen : List String
  vcpipe_vcfquality_data : List (String × List (String × Val))
  vcpipe_lowcoverage_data : List (String × List (String × List (Val × Nat)))
  vcpipe_basequality_data : List (String × List (String × Val))
  data_sources : List String
deriving DecidableEq

/-- Python dict assignment `m[k] = v`: overwrite the first binding of `k`
in place, or append a new binding at the end. -/
def dput {κ α : Type} [DecidableEq κ] : List (κ × α) → κ → α → List (κ × α)
  | [], k, v => [(k, v)]
  | (k0, v0) :: rest, k, v =>
      if k0 = k then (k, v) :: rest else (k0, v0) :: dput rest k v

/-- Python dict lookup `m.get(k)`. -/
def dget {κ α : Type} [DecidableEq κ] : List (κ × α) → κ → Option α
  | [], _ => none
  | (k0, v0) :: rest, k => if k0 = k then some v0 else dget rest k

/-- One increment step of `collections.Counter`: bump the count of `k`,
appending a fresh binding with count 1 when `k` is new. -/
def bump {κ : Type} [DecidableEq κ] : List (κ × Nat) → κ → List (κ × Nat)
  | [], k => [(k, 1)]
  | (k0, c) :: rest, k =>
      if k0 = k then (k, c + 1) :: rest else (k0, c) :: bump rest k

/-- `dict(collections.Counter(xs))`: fold `bump` over the list; keys appear
in first-encounter order with their multiplicities. -/
def counter {κ : Type} [DecidableEq κ] (xs : List κ) : List (κ × Nat) :=
  xs.foldl bump []

/-- Specification-side frequency count: the number of occurrences of `k`
in `xs` (used to state that `counter` computes frequency counts). -/
def freq {κ : Type} [DecidableEq κ] (xs : List κ) (k : κ) : Nat :=
  (xs.filter (fun x => decide (x = k))).length

/-- `region_cat(start, end)` from the source: classify a region by its
inclusive length `end - start + 1` into one of six fixed buckets. -/
def region_cat (start stop : Int) : String :=
  let delta := stop - start + 1
  if delta < 10 then "<10"
  else if delta < 20 then "10-19"
  else if delta < 30 then "20-29"
  else if delta < 50 then "30-49"
  else if delta < 100 then "50-99"
  else "100+"

/-- `if k not in header: header[k] = title` — add a general-stats column
header the first time its section is seen. -/
def headerAdd (h : List (String × String)) (k title : String) :
    List (String × String) :=
  if (dget h k).isSome then h else dput h k title

/-- Nested dict assignment `m[s][c] = v` on the general-stats data.  In every
call made by `parse_log` the row for `s` already exists (it is created when
`s` is first seen), so the `.getD []` default is never taken in the modeled
control flow. -/
def setRowField (m : List (String × List (String × Val))) (s c : String)
    (v : Val) : List (String × List (String × Val)) :=
  dput m s (dput ((dget m s).getD []) c v)

/-- Nested dict lookup `m.get(s, {}).get(c)` on the general-stats data. -/
def mapRowGet (m : List (String × List (String × Val))) (s c : String) :
    Option Val :=
  (dget m s).bind (fun row => dget row c)

/-- `MultiqcModule.parse_vcfquality`: record the column header, write `status`
into the sample's general-stats row under `"VcfQuality"`, store a copy of
`data` with `"status"` added into the VCF-quality detail table, return 1. -/
def parse_vcfquality (st : State) (s_name : String) (status : Int)
    (data : List (String × Val)) : State × Nat :=
  let st1 := { st with general_stats_header := headerAdd st.general_stats_header "VcfQuality" "VCF Quality" }
  let st2 := { st1 with general_stats_data := setRowField st1.general_stats_data s_name "VcfQuality" (Val.int status) }
  let st3 := { st2 with vcpipe_vcfquality_data := dput st2.vcpipe_vcfquality_data s_name (dput data "status" (Val.int status)) }
  (st3, 1)

/-- `MultiqcModule.parse_lowcoverage`: record the column header, write
`status` into the general-stats row under `"LowCoverageRegions"`; then, only
if `data.get("failed") is not None`, store the depth counter and the
region-size counter for the sample and return 1; otherwise return 0. -/
def parse_lowcoverage (st : State) (s_name : String) (status : Int)
    (data : Option (List Region)) : State × Nat :=
  let st1 := { st with general_stats_header := headerAdd st.general_stats_header "LowCoverageRegions" "Low Coverage Regions" }
  let st2 := { st1 with general_stats_data := setRowField st1.general_stats_data s_name "LowCoverageRegions" (Val.int status) }
  match data with
  | some regs =>
      let depth_counts := counter (regs.map (fun r => Val.int r.depth))
      let region_size := counter (regs.map (fun r => Val.str (region_cat r.start r.stop)))
      let lc1 := dput st2.vcpipe_lowcoverage_data "depth"
          (dput ((dget st2.vcpipe_lowcoverage_data "depth").getD []) s_name depth_counts)
      let lc2 := dput lc1 "size"
          (dput ((dget lc1 "size").getD []) s_name region_size)
      ({ st2 with vcpipe_lowcoverage_data := lc2 }, 1)
  | none => (st2, 0)

/-- `MultiqcModule.parse_basequality`: record the column header, write
`status` into the general-stats row under `"BaseQuality"`, store a copy of
`data` (without `status` — the source has no line adding it) into the
base-quality detail table, return 1. -/
def parse_basequality (st : State) (s_name : String) (status : Int)
    (data : List (String × Val)) : State × Nat :=
  let st1 := { st with general_stats_header := headerAdd st.general_stats_header "BaseQuality" "Base Quality" }
  let st2 := { st1 with general_stats_data := setRowField st1.general_stats_data s_name "BaseQuality" (Val.int status) }
  let st3 := { st2 with vcpipe_basequality_data := dput st2.vcpipe_basequality_data s_name data }
  (st3, 1)

/-- The `VcfQuality` branch of `parse_log`: call `parse_vcfquality` when the
key is present, otherwise contribute nothing. -/
def vcfStep (st : State) (s_name : String) :
    Option (Int × List (String × Val)) → State × Nat
  | some (status, data) => parse_vcfquality st s_name status data
  | none => (st, 0)

/-- The `LowCoverageRegions` branch of `parse_log`. -/
def lcStep (st : State) (s_name : String) :
    Option (Int × Option (List Region)) → State × Nat
  | some (status, data) => parse_lowcoverage st s_name status data
  | none => (st, 0)

/-- The `BaseQuality` branch of `parse_log`. -/
def bqStep (st : State) (s_name : String) :
    Option (Int × List (String × Val)) → State × Nat
  | some (status, data) => parse_basequality st s_name status data
  | none => (st, 0)

/-- The number of `log.error("Could not find expected key ...")` diagnostics
`parse_log` emits for a document: one per missing section key. -/
def sectionErrs (body : Document) : Nat :=
  (if body.VcfQuality.isSome then 0 else 1) +
  (if body.LowCoverageRegions.isSome then 0 else 1) +
  (if body.BaseQuality.isSome then 0 else 1)

/-- `MultiqcModule.parse_log`: on a fresh sample name, mark it seen and
initialize an empty general-stats row (a duplicate name only logs a debug
message and keeps the existing row); then run the three section branches in
source order, summing their returns into `n`.  The result is
`(state, n, number of missing-key diagnostics)`.  `preSt` is the
fresh-sample prologue (lines 160-164 of the source). -/
def preSt (st0 : State) (s_name : String) : State :=
  if st0.vcpipe_seen.contains s_name then st0
  else { st0 with
          vcpipe_seen := s_name :: st0.vcpipe_seen,
          general_stats_data := dput st0.general_stats_data s_name [] }

def parse_log (st0 : State) (s_name : String) (body : Document) :
    State × Nat × Nat :=
  let st := preSt st0 s_name
  let p1 := vcfStep st s_name body.VcfQuality
  let p2 := lcStep p1.1 s_name body.LowCoverageRegions
  let p3 := bqStep p2.1 s_name body.BaseQuality
  (p3.1, p1.2 + p2.2 + p3.2, sectionErrs body)

/-- Modelled from the spec: `BaseMultiqcModule.clean_s_name`, the external
display-name sanitization collaborator (declared outside the examined
module).  The spec treats it as an opaque normalizer of raw sample ids;
modeled as the identity on the raw id. -/
def clean_s_name (s _root : String) : String := s

/-- The literal prefix of the sample-name marker in the pattern
`Diag-(.+?)\/`. -/
def diagMarker : List Char := ['D', 'i', 'a', 'g', '-']

/-- Scan for the first terminating `/` of the non-greedy group `(.+?)`:
returns the characters before the first `/`, failing if a newline (which `.`
does not match) or the end of the string is reached first. -/
def scanSlash : List Char → Option (List Char)
  | [] => none
  | c :: rest =>
      if c = '/' then some []
      else if c = '\n' then none
      else (scanSlash rest).map (fun t => c :: t)

/-- Match `(.+?)\/` at the current position: the group must consume at least
one (non-newline) character, then the shortest extension reaching a `/`
wins. -/
def captureAfter : List Char → Option (List Char)
  | [] => none
  | c :: rest =>
      if c = '\n' then none else (scanSlash rest).map (fun t => c :: t)

/-- `re.search("Diag-(.+?)\/", path)`: try each start position left to
right; at a position where the literal `Diag-` matches and the group
completes, return the group; otherwise advance one character. -/
def searchDiag : List Char → Option (List Char)
  | [] => none
  | c :: rest =>
      if diagMarker.isPrefixOf (c :: rest) then
        match captureAfter (List.drop 4 rest) with
        | some cap => some cap
        | none => searchDiag rest
      else searchDiag rest

/-- Sample-identity extraction: the raw captured group of the regex search
over the file's root path (before external sanitization). -/
def extract (path : String) : Option String :=
  (searchDiag path.toList).map String.mk

/-- The message of the `ValueError` raised when the sample name cannot be
found in a path. -/
def pathError (root : String) : String :=
  "Could not find sample name in path " ++ root

/-- The `__init__` discovery loop over the found log files: extract the
sample name from `f["root"]` (raising, i.e. aborting the whole run, when the
regex does not match), sanitize it, parse the file, and register the file as
a data source exactly when `parse_log` returned a positive count. -/
def runFiles (st : State) : List LogFile → Except String State
  | [] => Except.ok st
  | f :: rest =>
      match searchDiag f.root.toList with
      | some cap =>
          let s_name := clean_s_name (String.mk cap) f.root
          let pr := parse_log st s_name f.body
          let st2 := if 0 < pr.2.1 then
              { pr.1 with data_sources := pr.1.data_sources ++ [f.root] }
            else pr.1
          runFiles st2 rest
      | none => Except.error (pathError f.root)

/-- The fields of `MultiqcModule` right after initialization, before the
discovery loop; the low-coverage accumulator is
`dict(depth=dict(), size=dict())`. -/
def initState : State :=
  { general_stats_header := []
    general_stats_data := []
    vcpipe_seen := []
    vcpipe_vcfquality_data := []
    vcpipe_lowcoverage_data := [("depth", []), ("size", [])]
    vcpipe_basequality_data := []
    data_sources := [] }

/-- The report-builder guard `len(self.vcpipe_vcfquality_data) > 0` deciding
whether the VCF-quality section is emitted. -/
def emits_vcfquality (st : State) : Bool :=
  decide (0 < st.vcpipe_vcfquality_data.length)

/-- The report-builder guard `len(self.vcpipe_lowcoverage_data) > 0` deciding
whether the low-coverage section is emitted (the length of the outer dict,
whose keys are `"depth"` and `"size"`). -/
def emits_lowcoverage (st : State) : Bool :=
  decide (0 < st.vcpipe_lowcoverage_data.length)

/-- The report-builder guard `len(self.vcpipe_basequality_data) > 0` deciding
whether the base-quality section is emitted. -/
def emits_basequality (st : State) : Bool :=
  decide (0 < st.vcpipe_basequality_data.length)

/-- Lookup of a general-stats row field: `general_stats_data.get(s, {}).get(c)`. -/
def rowGet (st : State) (s c : String) : Option Val :=
  mapRowGet st.general_stats_data s c

/-- Lookup of a sample's depth counter:
`vcpipe_lowcoverage_data["depth"].get(s)`. -/
def depthGet (st : State) (s : String) : Option (List (Val × Nat)) :=
  dget ((dget st.vcpipe_lowcoverage_data "depth").getD []) s

/-- Lookup of a sample's region-size counter:
`vcpipe_lowcoverage_data["size"].get(s)`. -/
def sizeGet (st : State) (s : String) : Option (List (Val × Nat)) :=
  dget ((dget st.vcpipe_lowcoverage_data "size").getD []) s

/-- Whether a document's sections touch the general-stats column `c`:
each present section writes exactly its own column. -/
def touched (d : Document) (c : String) : Bool :=
  (decide (c = "VcfQuality") && d.VcfQuality.isSome) ||
  (decide (c = "LowCoverageRegions") && d.LowCoverageRegions.isSome) ||
  (decide (c = "BaseQuality") && d.BaseQuality.isSome)

/-- `cleanPrefix m p` holds when no start position inside `p` (continuing
into `m`) begins with the literal `Diag-`: the regex search over `p ++ m`
therefore reaches `m` without matching earlier. -/
def cleanPrefix (m : List Char) : List Char → Bool
  | [] => true
  | c :: rest =>
      (!(diagMarker.isPrefixOf (c :: (rest ++ m)))) && cleanPrefix m rest

/-- The contribution of the `LowCoverageRegions` branch to `parse_log`'s
count: 1 exactly when the section is present with a `failed` key. -/
def lcCount : Option (Int × Option (List Region)) → Nat
  | some (_, some _) => 1
  | _ => 0

/-- The total count `n` returned by `parse_log` for a document. -/
def secCount (d : Document) : Nat :=
  (if d.VcfQuality.isSome then 1 else 0) + lcCount d.LowCoverageRegions +
    (if d.BaseQuality.isSome then 1 else 0)

/-- Ingesting two files in sequence for the same sample key (two successive
`parse_log` calls), the state after the second. -/
def ingest2 (st0 : State) (s : String) (d1 d2 : Document) : State :=
  (parse_log (parse_log st0 s d1).1 s d2).1

/-! ### Association-list (dict) laws -/

theorem dget_dput_self {κ α : Type} [DecidableEq κ] (m : List (κ × α))
    (k : κ) (v : α) : dget (dput m k v) k = some v := by
  induction m with
  | nil => simp [dput, dget]
  | cons p rest ih =>
      obtain ⟨k0, v0⟩ := p
      by_cases h : k0 = k
      · subst h
        simp [dput, dget]
      · simp [dput, dget, h, ih]

theorem dget_dput_ne {κ α : Type} [DecidableEq κ] (m : List (κ × α))
    {k q : κ} (v : α) (h : q ≠ k) : dget (dput m k v) q = dget m q := by
  have hk : k ≠ q := Ne.symm h
  induction m with
  | nil => simp [dput, dget, hk]
  | cons p rest ih =>
      obtain ⟨k0, v0⟩ := p
      by_cases h0 : k0 = k
      · subst h0
        simp [dput, dget, hk]
      · by_cases hq : k0 = q <;> simp [dput, dget, h0, hq, h, ih]

theorem bump_dget_self {κ : Type} [DecidableEq κ] (m : List (κ × Nat))
    (k : κ) : (dget (bump m k) k).getD 0 = (dget m k).getD 0 + 1 := by
  induction m with
  | nil => simp [bump, dget]
  | cons p rest ih =>
      obtain ⟨k0, c⟩ := p
      by_cases h : k0 = k
      · subst h
        simp [bump, dget]
      · simp [bump, dget, h, ih]

theorem bump_dget_ne {κ : Type} [DecidableEq κ] (m : List (κ × Nat))
    {k q : κ} (h : q ≠ k) : dget (bump m k) q = dget m q := by
  have hk : k ≠ q := Ne.symm h
  induction m with
  | nil => simp [bump, dget, hk]
  | cons p rest ih =>
      obtain ⟨k0, c⟩ := p
      by_cases h0 : k0 = k
      · subst h0
        simp [bump, dget, hk]
      · by_cases hq : k0 = q <;> simp [bump, dget, h0, hq, h, ih]

theorem freq_cons {κ : Type} [DecidableEq κ] (x : κ) (xs : List κ) (k : κ) :
    freq (x :: xs) k = (if x = k then 1 else 0) + freq xs k := by
  by_cases h : x = k <;> simp [freq, List.filter, h, Nat.add_comm]

theorem counter_foldl_freq {κ : Type} [DecidableEq κ] (xs : List κ)
    (acc : List (κ × Nat)) (k : κ) :
    (dget (xs.foldl bump acc) k).getD 0 = (dget acc k).getD 0 + freq xs k := by
  induction xs generalizing acc with
  | nil => simp [freq]
  | cons x rest ih =>
      rw [List.foldl_cons, ih, freq_cons]
      by_cases h : x = k
      · subst h
        rw [bump_dget_self, if_pos rfl]
        omega
      · rw [bump_dget_ne acc (show k ≠ x from fun hh => h hh.symm), if_neg h]
        omega

/-- `counter` computes the frequency count: the stored count of every key `k`
(0 when `k` is absent) is the number of occurrences of `k` in the input. -/
theorem counter_freq {κ : Type} [DecidableEq κ] (xs : List κ) (k : κ) :
    (dget (counter xs) k).getD 0 = freq xs k := by
  rw [counter, counter_foldl_freq]
  simp [dget]

/-! ### Row access laws -/

theorem mapRowGet_setRowField_ne (m : List (String × List (String × Val)))
    (s s' c c' : String) (v : Val) (h : c' ≠ c) :
    mapRowGet (setRowField m s c v) s' c' = mapRowGet m s' c' := by
  unfold mapRowGet setRowField
  by_cases hs : s' = s
  · subst hs
    rw [dget_dput_self]
    cases hm : dget m s' with
    | none => simp [hm, dget, dput, Ne.symm h]
    | some row => simp [hm, dget_dput_ne _ _ h]
  · rw [dget_dput_ne _ _ hs]

theorem mapRowGet_setRowField_self (m : List (String × List (String × Val)))
    (s c : String) (v : Val) :
    mapRowGet (setRowField m s c v) s c = some v := by
  unfold mapRowGet setRowField
  rw [dget_dput_self]
  simp [dget_dput_self]

/-! ### Field-preservation laws for the three section branches -/

theorem vcfStep_seen (st : State) (s : String)
    (o : Option (Int × List (String × Val))) :
    (vcfStep st s o).1.vcpipe_seen = st.vcpipe_seen := by
  rcases o with _ | ⟨a, d⟩ <;> rfl

theorem vcfStep_lc (st : State) (s : String)
    (o : Option (Int × List (String × Val))) :
    (vcfStep st s o).1.vcpipe_lowcoverage_data = st.vcpipe_lowcoverage_data := by
  rcases o with _ | ⟨a, d⟩ <;> rfl

theorem vcfStep_bq (st : State) (s : String)
    (o : Option (Int × List (String × Val))) :
    (vcfStep st s o).1.vcpipe_basequality_data = st.vcpipe_basequality_data := by
  rcases o with _ | ⟨a, d⟩ <;> rfl

theorem vcfStep_ds (st : State) (s : String)
    (o : Option (Int × List (String × Val))) :
    (vcfStep st s o).1.data_sources = st.data_sources := by
  rcases o with _ | ⟨a, d⟩ <;> rfl

theorem vcfStep_vcfq_none (st : State) (s : String) :
    (vcfStep st s none).1.vcpipe_vcfquality_data = st.vcpipe_vcfquality_data := rfl

theorem vcfStep_vcfq_some (st : State) (s : String) (a : Int)
    (d : List (String × Val)) :
    (vcfStep st s (some (a, d))).1.vcpipe_vcfquality_data =
      dput st.vcpipe_vcfquality_data s (dput d "status" (Val.int a)) := rfl

theorem vcfStep_n (st : State) (s : String)
    (o : Option (Int × List (String × Val))) :
    (vcfStep st s o).2 = if o.isSome then 1 else 0 := by
  rcases o with _ | ⟨a, d⟩ <;> rfl

theorem vcfStep_rowGet_ne (st : State) (s s' c : String)
    (o : Option (Int × List (String × Val))) (h : c ≠ "VcfQuality") :
    mapRowGet (vcfStep st s o).1.general_stats_data s' c =
      mapRowGet st.general_stats_data s' c := by
  rcases o with _ | ⟨a, d⟩
  · rfl
  · exact mapRowGet_setRowField_ne st.general_stats_data s s' "VcfQuality" c
      (Val.int a) h

theorem vcfStep_rowGet_some (st : State) (s : String) (a : Int)
    (d : List (String × Val)) :
    mapRowGet (vcfStep st s (some (a, d))).1.general_stats_data s "VcfQuality" =
      some (Val.int a) :=
  mapRowGet_setRowField_self st.general_stats_data s "VcfQuality" (Val.int a)

theorem lcStep_seen (st : State) (s : String)
    (o : Option (Int × Option (List Region))) :
    (lcStep st s o).1.vcpipe_seen = st.vcpipe_seen := by
  rcases o with _ | ⟨a, _ | regs⟩ <;> rfl

theorem lcStep_vcfq (st : State) (s : String)
    (o : Option (Int × Option (List Region))) :
    (lcStep st s o).1.vcpipe_vcfquality_data = st.vcpipe_vcfquality_data := by
  rcases o with _ | ⟨a, _ | regs⟩ <;> rfl

theorem lcStep_bq (st : State) (s : String)
    (o : Option (Int × Option (List Region))) :
    (lcStep st s o).1.vcpipe_basequality_data = st.vcpipe_basequality_data := by
  rcases o with _ | ⟨a, _ | regs⟩ <;> rfl

theorem lcStep_ds (st : State) (s : String)
    (o : Option (Int × Option (List Region))) :
    (lcStep st s o).1.data_sources = st.data_sources := by
  rcases o with _ | ⟨a, _ | regs⟩ <;> rfl

theorem lcStep_lc_noneKey (st : State) (s : String) :
    (lcStep st s none).1.vcpipe_lowcoverage_data = st.vcpipe_lowcoverage_data := rfl

theorem lcStep_lc_noneFailed (st : State) (s : String) (a : Int) :
    (lcStep st s (some (a, none))).1.vcpipe_lowcoverage_data =
      st.vcpipe_lowcoverage_data := rfl

theorem lcStep_n (st : State) (s : String)
    (o : Option (Int × Option (List Region))) :
    (lcStep st s o).2 = lcCount o := by
  rcases o with _ | ⟨a, _ | regs⟩ <;> rfl

theorem lcStep_rowGet_ne (st : State) (s s' c : String)
    (o : Option (Int × Option (List Region))) (h : c ≠ "LowCoverageRegions") :
    mapRowGet (lcStep st s o).1.general_stats_data s' c =
      mapRowGet st.general_stats_data s' c := by
  rcases o with _ | ⟨a, d⟩
  · rfl
  · have hgsd : (lcStep st s (some (a, d))).1.general_stats_data =
        setRowField st.general_stats_data s "LowCoverageRegions" (Val.int a) := by
      rcases d with _ | regs <;> rfl
    rw [hgsd]
    exact mapRowGet_setRowField_ne st.general_stats_data s s' "LowCoverageRegions"
      c (Val.int a) h

theorem lcStep_rowGet_some (st : State) (s : String) (a : Int)
    (d : Option (List Region)) :
    mapRowGet (lcStep st s (some (a, d))).1.general_stats_data s
      "LowCoverageRegions" = some (Val.int a) := by
  have hgsd : (lcStep st s (some (a, d))).1.general_stats_data =
      setRowField st.general_stats_data s "LowCoverageRegions" (Val.int a) := by
    rcases d with _ | regs <;> rfl
  rw [hgsd]
  exact mapRowGet_setRowField_self st.general_stats_data s "LowCoverageRegions"
    (Val.int a)

theorem lcStep_depthGet_some (st : State) (s : String) (a : Int)
    (regs : List Region) :
    depthGet (lcStep st s (some (a, some regs))).1 s =
      some (counter (regs.map (fun r => Val.int r.depth))) := by
  show dget ((dget (dput (dput st.vcpipe_lowcoverage_data "depth" _) "size" _)
      "depth").getD []) s = _
  rw [dget_dput_ne _ _ (by decide : "depth" ≠ "size"), dget_dput_self]
  simp [dget_dput_self]

theorem lcStep_sizeGet_some (st : State) (s : String) (a : Int)
    (regs : List Region) :
    sizeGet (lcStep st s (some (a, some regs))).1 s =
      some (counter (regs.map (fun r => Val.str (region_cat r.start r.stop)))) := by
  show dget ((dget (dput (dput st.vcpipe_lowcoverage_data "depth" _) "size" _)
      "size").getD []) s = _
  rw [dget_dput_self]
  simp [dget_dput_self]

theorem bqStep_seen (st : State) (s : String)
    (o : Option (Int × List (String × Val))) :
    (bqStep st s o).1.vcpipe_seen = st.vcpipe_seen := by
  rcases o with _ | ⟨a, d⟩ <;> rfl

theorem bqStep_lc (st : State) (s : String)
    (o : Option (Int × List (String × Val))) :
    (bqStep st s o).1.vcpipe_lowcoverage_data = st.vcpipe_lowcoverage_data := by
  rcases o with _ | ⟨a, d⟩ <;> rfl

theorem bqStep_vcfq (st : State) (s : String)
    (o : Option (Int × List (String × Val))) :
    (bqStep st s o).1.vcpipe_vcfquality_data = st.vcpipe_vcfquality_data := by
  rcases o with _ | ⟨a, d⟩ <;> rfl

theorem bqStep_ds (st : State) (s : String)
    (o : Option (Int × List (String × Val))) :
    (bqStep st s o).1.data_sources = st.data_sources := by
  rcases o with _ | ⟨a, d⟩ <;> rfl

theorem bqStep_bq_none (st : State) (s : String) :
    (bqStep st s none).1.vcpipe_basequality_data = st.vcpipe_basequality_data := rfl

theorem bqStep_bq_some (st : State) (s : String) (a : Int)
    (d : List (String × Val)) :
    (bqStep st s (some (a, d))).1.vcpipe_basequality_data =
      dput st.vcpipe_basequality_data s d := rfl

theorem bqStep_n (st : State) (s : String)
    (o : Option (Int × List (String × Val))) :
    (bqStep st s o).2 = if o.isSome then 1 else 0 := by
  rcases o with _ | ⟨a, d⟩ <;> rfl

theorem bqStep_rowGet_ne (st : State) (s s' c : String)
    (o : Option (Int × List (String × Val))) (h : c ≠ "BaseQuality") :
    mapRowGet (bqStep st s o).1.general_stats_data s' c =
      mapRowGet st.general_stats_data s' c := by
  rcases o with _ | ⟨a, d⟩
  · rfl
  · exact mapRowGet_setRowField_ne st.general_stats_data s s' "BaseQuality" c
      (Val.int a) h

theorem bqStep_rowGet_some (st : State) (s : String) (a : Int)
    (d : List (String × Val)) :
    mapRowGet (bqStep st s (some (a, d))).1.general_stats_data s "BaseQuality" =
      some (Val.int a) :=
  mapRowGet_setRowField_self st.general_stats_data s "BaseQuality" (Val.int a)

/-! ### `preSt` and `parse_log` characterization -/

theorem preSt_of_contains (st : State) (s : String)
    (h : st.vcpipe_seen.contains s = true) : preSt st s = st := by
  have hm : s ∈ st.vcpipe_seen := by simpa using h
  simp [preSt, hm]

theorem preSt_seen_self (st : State) (s : String) :
    (preSt st s).vcpipe_seen.contains s = true := by
  by_cases hm : s ∈ st.vcpipe_seen <;> simp [preSt, hm]

theorem preSt_vcfq (st : State) (s : String) :
    (preSt st s).vcpipe_vcfquality_data = st.vcpipe_vcfquality_data := by
  by_cases hm : s ∈ st.vcpipe_seen <;> simp [preSt, hm]

theorem preSt_lc (st : State) (s : String) :
    (preSt st s).vcpipe_lowcoverage_data = st.vcpipe_lowcoverage_data := by
  by_cases hm : s ∈ st.vcpipe_seen <;> simp [preSt, hm]

theorem preSt_bq (st : State) (s : String) :
    (preSt st s).vcpipe_basequality_data = st.vcpipe_basequality_data := by
  by_cases hm : s ∈ st.vcpipe_seen <;> simp [preSt, hm]

theorem preSt_ds (st : State) (s : String) :
    (preSt st s).data_sources = st.data_sources := by
  by_cases hm : s ∈ st.vcpipe_seen <;> simp [preSt, hm]

theorem preSt_gsd_new (st : State) (s : String)
    (h : st.vcpipe_seen.contains s = false) :
    (preSt st s).general_stats_data = dput st.general_stats_data s [] := by
  have hm : s ∉ st.vcpipe_seen := by simpa using h
  simp [preSt, hm]

theorem vcfStep_none_state (st : State) (s : String) :
    (vcfStep st s none).1 = st := rfl

theorem lcStep_none_state (st : State) (s : String) :
    (lcStep st s none).1 = st := rfl

theorem bqStep_none_state (st : State) (s : String) :
    (bqStep st s none).1 = st := rfl

theorem parse_log_fst (st : State) (s : String) (d : Document) :
    (parse_log st s d).1 =
      (bqStep (lcStep (vcfStep (preSt st s) s d.VcfQuality).1 s
        d.LowCoverageRegions).1 s d.BaseQuality).1 := rfl

theorem parse_log_count (st : State) (s : String) (d : Document) :
    (parse_log st s d).2.1 =
      (vcfStep (preSt st s) s d.VcfQuality).2 +
      (lcStep (vcfStep (preSt st s) s d.VcfQuality).1 s d.LowCoverageRegions).2 +
      (bqStep (lcStep (vcfStep (preSt st s) s d.VcfQuality).1 s
        d.LowCoverageRegions).1 s d.BaseQuality).2 := rfl

theorem parse_log_errs (st : State) (s : String) (d : Document) :
    (parse_log st s d).2.2 = sectionErrs d := rfl

theorem parse_log_n (st : State) (s : String) (d : Document) :
    (parse_log st s d).2.1 = secCount d := by
  rw [parse_log_count, vcfStep_n, lcStep_n, bqStep_n, secCount]

theorem parse_log_seen_self (st : State) (s : String) (d : Document) :
    (parse_log st s d).1.vcpipe_seen.contains s = true := by
  rw [parse_log_fst, bqStep_seen, lcStep_seen, vcfStep_seen]
  exact preSt_seen_self st s

theorem parse_log_ds (st : State) (s : String) (d : Document) :
    (parse_log st s d).1.data_sources = st.data_sources := by
  rw [parse_log_fst, bqStep_ds, lcStep_ds, vcfStep_ds, preSt_ds]

theorem parse_log_vcfq_none (st : State) (s : String) (d : Document)
    (h : d.VcfQuality = none) :
    (parse_log st s d).1.vcpipe_vcfquality_data = st.vcpipe_vcfquality_data := by
  rw [parse_log_fst, bqStep_vcfq, lcStep_vcfq, h, vcfStep_vcfq_none, preSt_vcfq]

theorem parse_log_vcfq_some (st : State) (s : String) (d : Document)
    (a : Int) (dt : List (String × Val)) (h : d.VcfQuality = some (a, dt)) :
    (parse_log st s d).1.vcpipe_vcfquality_data =
      dput st.vcpipe_vcfquality_data s (dput dt "status" (Val.int a)) := by
  rw [parse_log_fst, bqStep_vcfq, lcStep_vcfq, h, vcfStep_vcfq_some, preSt_vcfq]

theorem parse_log_bq_none (st : State) (s : String) (d : Document)
    (h : d.BaseQuality = none) :
    (parse_log st s d).1.vcpipe_basequality_data = st.vcpipe_basequality_data := by
  rw [parse_log_fst, h, bqStep_bq_none, lcStep_bq, vcfStep_bq, preSt_bq]

theorem parse_log_bq_some (st : State) (s : String) (d : Document)
    (a : Int) (dt : List (String × Val)) (h : d.BaseQuality = some (a, dt)) :
    (parse_log st s d).1.vcpipe_basequality_data =
      dput st.vcpipe_basequality_data s dt := by
  rw [parse_log_fst, h, bqStep_bq_some, lcStep_bq, vcfStep_bq, preSt_bq]

theorem parse_log_lc_none (st : State) (s : String) (d : Document)
    (h : d.LowCoverageRegions = none) :
    (parse_log st s d).1.vcpipe_lowcoverage_data = st.vcpipe_lowcoverage_data := by
  rw [parse_log_fst, bqStep_lc, h, lcStep_lc_noneKey, vcfStep_lc, preSt_lc]

theorem parse_log_lc_noneFailed (st : State) (s : String) (d : Document)
    (a : Int) (h : d.LowCoverageRegions = some (a, none)) :
    (parse_log st s d).1.vcpipe_lowcoverage_data = st.vcpipe_lowcoverage_data := by
  rw [parse_log_fst, bqStep_lc, h, lcStep_lc_noneFailed, vcfStep_lc, preSt_lc]

theorem parse_log_depthGet (st : State) (s : String) (d : Document)
    (a : Int) (regs : List Region)
    (h : d.LowCoverageRegions = some (a, some regs)) :
    depthGet (parse_log st s d).1 s =
      some (counter (regs.map (fun r => Val.int r.depth))) := by
  rw [depthGet, parse_log_fst, bqStep_lc, h]
  exact lcStep_depthGet_some _ s a regs

theorem parse_log_sizeGet (st : State) (s : String) (d : Document)
    (a : Int) (regs : List Region)
    (h : d.LowCoverageRegions = some (a, some regs)) :
    sizeGet (parse_log st s d).1 s =
      some (counter (regs.map (fun r => Val.str (region_cat r.start r.stop)))) := by
  rw [sizeGet, parse_log_fst, bqStep_lc, h]
  exact lcStep_sizeGet_some _ s a regs

theorem parse_log_rowGet_vcf (st : State) (s : String) (d : Document)
    (a : Int) (dt : List (String × Val)) (h : d.VcfQuality = some (a, dt)) :
    rowGet (parse_log st s d).1 s "VcfQuality" = some (Val.int a) := by
  rw [rowGet, parse_log_fst,
    bqStep_rowGet_ne _ _ _ _ _ (by decide : "VcfQuality" ≠ "BaseQuality"),
    lcStep_rowGet_ne _ _ _ _ _ (by decide : "VcfQuality" ≠ "LowCoverageRegions"),
    h]
  exact vcfStep_rowGet_some _ s a dt

theorem parse_log_rowGet_lc (st : State) (s : String) (d : Document)
    (a : Int) (dt : Option (List Region))
    (h : d.LowCoverageRegions = some (a, dt)) :
    rowGet (parse_log st s d).1 s "LowCoverageRegions" = some (Val.int a) := by
  rw [rowGet, parse_log_fst,
    bqStep_rowGet_ne _ _ _ _ _ (by decide : "LowCoverageRegions" ≠ "BaseQuality"),
    h]
  exact lcStep_rowGet_some _ s a dt

theorem parse_log_rowGet_bq (st : State) (s : String) (d : Document)
    (a : Int) (dt : List (String × Val)) (h : d.BaseQuality = some (a, dt)) :
    rowGet (parse_log st s d).1 s "BaseQuality" = some (Val.int a) := by
  rw [rowGet, parse_log_fst, h]
  exact bqStep_rowGet_some _ s a dt

theorem parse_log_rowGet_frame (st : State) (s c : String) (d : Document)
    (hseen : st.vcpipe_seen.contains s = true) (ht : touched d c = false) :
    rowGet (parse_log st s d).1 s c = rowGet st s c := by
  rw [rowGet, rowGet, parse_log_fst, preSt_of_contains st s hseen]
  cases hbq : d.BaseQuality with
  | some p =>
      obtain ⟨a3, d3⟩ := p
      have hcb : c ≠ "BaseQuality" := by
        intro hc
        subst hc
        simp [touched, hbq] at ht
      rw [bqStep_rowGet_ne _ _ _ _ _ hcb]
      cases hlc : d.LowCoverageRegions with
      | some q =>
          obtain ⟨a2, d2⟩ := q
          have hcl : c ≠ "LowCoverageRegions" := by
            intro hc
            subst hc
            simp [touched, hlc] at ht
          rw [lcStep_rowGet_ne _ _ _ _ _ hcl]
          cases hvq : d.VcfQuality with
          | some r =>
              obtain ⟨a1, d1⟩ := r
              have hcv : c ≠ "VcfQuality" := by
                intro hc
                subst hc
                simp [touched, hvq] at ht
              rw [vcfStep_rowGet_ne _ _ _ _ _ hcv]
          | none => rw [vcfStep_none_state]
      | none =>
          rw [lcStep_none_state]
          cases hvq : d.VcfQuality with
          | some r =>
              obtain ⟨a1, d1⟩ := r
              have hcv : c ≠ "VcfQuality" := by
                intro hc
                subst hc
                simp [touched, hvq] at ht
              rw [vcfStep_rowGet_ne _ _ _ _ _ hcv]
          | none => rw [vcfStep_none_state]
  | none =>
      rw [bqStep_none_state]
      cases hlc : d.LowCoverageRegions with
      | some q =>
          obtain ⟨a2, d2⟩ := q
          have hcl : c ≠ "LowCoverageRegions" := by
            intro hc
            subst hc
            simp [touched, hlc] at ht
          rw [lcStep_rowGet_ne _ _ _ _ _ hcl]
          cases hvq : d.VcfQuality with
          | some r =>
              obtain ⟨a1, d1⟩ := r
              have hcv : c ≠ "VcfQuality" := by
                intro hc
                subst hc
                simp [touched, hvq] at ht
              rw [vcfStep_rowGet_ne _ _ _ _ _ hcv]
          | none => rw [vcfStep_none_state]
      | none =>
          rw [lcStep_none_state]
          cases hvq : d.VcfQuality with
          | some r =>
              obtain ⟨a1, d1⟩ := r
              have hcv : c ≠ "VcfQuality" := by
                intro hc
                subst hc
                simp [touched, hvq] at ht
              rw [vcfStep_rowGet_ne _ _ _ _ _ hcv]
          | none => rw [vcfStep_none_state]

/-! ### Regex-search laws -/

theorem searchDiag_cons (c : Char) (rest : List Char) :
    searchDiag (c :: rest) =
      if diagMarker.isPrefixOf (c :: rest) then
        match captureAfter (List.drop 4 rest) with
        | some cap => some cap
        | none => searchDiag rest
      else searchDiag rest := rfl

theorem scanSlash_append (ids q : List Char) (h1 : '/' ∉ ids) (h2 : '\n' ∉ ids) :
    scanSlash (ids ++ '/' :: q) = some ids := by
  induction ids with
  | nil => simp [scanSlash]
  | cons c cs ih =>
      have hc1 : c ≠ '/' := by intro hh; exact h1 (by simp [hh])
      have hc2 : c ≠ '\n' := by intro hh; exact h2 (by simp [hh])
      have t1 : '/' ∉ cs := fun hh => h1 (List.mem_cons_of_mem _ hh)
      have t2 : '\n' ∉ cs := fun hh => h2 (List.mem_cons_of_mem _ hh)
      simp [scanSlash, hc1, hc2, ih t1 t2]

theorem captureAfter_marker (idc q : List Char) (hne : idc ≠ [])
    (h1 : '/' ∉ idc) (h2 : '\n' ∉ idc) :
    captureAfter (idc ++ '/' :: q) = some idc := by
  cases idc with
  | nil => exact absurd rfl hne
  | cons c cs =>
      have hc2 : c ≠ '\n' := by intro hh; exact h2 (by simp [hh])
      have t1 : '/' ∉ cs := fun hh => h1 (List.mem_cons_of_mem _ hh)
      have t2 : '\n' ∉ cs := fun hh => h2 (List.mem_cons_of_mem _ hh)
      simp [captureAfter, hc2, scanSlash_append cs q t1 t2]

theorem searchDiag_marker (idc q : List Char) (hne : idc ≠ [])
    (h1 : '/' ∉ idc) (h2 : '\n' ∉ idc) :
    searchDiag (diagMarker ++ (idc ++ '/' :: q)) = some idc := by
  have hcap := captureAfter_marker idc q hne h1 h2
  rw [show diagMarker ++ (idc ++ '/' :: q) =
    'D' :: ('i' :: 'a' :: 'g' :: '-' :: (idc ++ '/' :: q)) from rfl]
  rw [searchDiag_cons]
  have hpre : diagMarker.isPrefixOf
      ('D' :: ('i' :: 'a' :: 'g' :: '-' :: (idc ++ '/' :: q))) = true := by
    simp [diagMarker, List.isPrefixOf]
  rw [if_pos hpre]
  have hdrop : List.drop 4 ('i' :: 'a' :: 'g' :: '-' :: (idc ++ '/' :: q)) =
      idc ++ '/' :: q := rfl
  rw [hdrop, hcap]

theorem searchDiag_cleanPrefix (p m : List Char) (h : cleanPrefix m p = true) :
    searchDiag (p ++ m) = searchDiag m := by
  induction p with
  | nil => simp
  | cons c rest ih =>
      simp only [cleanPrefix, Bool.and_eq_true, Bool.not_eq_true'] at h
      rw [List.cons_append, searchDiag_cons, if_neg (by simp [h.1]), ih h.2]

/-! ### Driver-loop laws -/

theorem runFiles_error (st : State) (f : LogFile) (fs : List LogFile)
    (h : searchDiag f.root.toList = none) :
    runFiles st (f :: fs) = Except.error (pathError f.root) := by
  simp only [runFiles, h]

theorem runFiles_cons_zero (st : State) (f : LogFile) (fs : List LogFile)
    (cap : List Char) (h : searchDiag f.root.toList = some cap)
    (hn : (parse_log st (clean_s_name (String.mk cap) f.root) f.body).2.1 = 0) :
    runFiles st (f :: fs) =
      runFiles (parse_log st (clean_s_name (String.mk cap) f.root) f.body).1 fs := by
  simp only [runFiles, h, hn]
  rw [if_neg (Nat.lt_irrefl 0)]

theorem runFiles_nil (st : State) : runFiles st [] = Except.ok st := rfl

/-! ### Claims -/

/-- C3: `region_cat` computes `length = stop - start + 1` and returns exactly
one bucket by the fixed thresholds: `< 10` gives `"<10"`, `< 20` gives
`"10-19"`, `< 30` gives `"20-29"`, `< 50` gives `"30-49"`, `< 100` gives
`"50-99"`, otherwise `"100+"`; in particular the seven stated example
classifications hold. -/
theorem c3_region_cat_thresholds (start stop : Int) :
    (stop - start + 1 < 10 ↔ region_cat start stop = "<10") ∧
    (10 ≤ stop - start + 1 ∧ stop - start + 1 < 20 ↔
      region_cat start stop = "10-19") ∧
    (20 ≤ stop - start + 1 ∧ stop - start + 1 < 30 ↔
      region_cat start stop = "20-29") ∧
    (30 ≤ stop - start + 1 ∧ stop - start + 1 < 50 ↔
      region_cat start stop = "30-49") ∧
    (50 ≤ stop - start + 1 ∧ stop - start + 1 < 100 ↔
      region_cat start stop = "50-99") ∧
    (100 ≤ stop - start + 1 ↔ region_cat start stop = "100+") ∧
    region_cat 1 9 = "<10" ∧ region_cat 1 10 = "10-19" ∧
    region_cat 1 19 = "10-19" ∧ region_cat 1 20 = "20-29" ∧
    region_cat 1 49 = "30-49" ∧ region_cat 1 50 = "50-99" ∧
    region_cat 1 100 = "100+" := by
  refine ⟨?_, ?_, ?_, ?_, ?_, ?_, by decide, by decide, by decide, by decide,
    by decide, by decide, by decide⟩ <;>
    (simp only [region_cat]
     split_ifs <;> constructor <;> intro hh <;>
       first
         | rfl
         | omega
         | (exact absurd hh (by decide)))

/-- C3 witness: the first threshold applied at `(1, 9)`. -/
theorem c3_witness : region_cat 1 9 = "<10" :=
  (c3_region_cat_thresholds 1 9).1.mp (by decide)

/-- C5: for a sample whose LowCoverageRegions section has a present,
non-empty `failed` list, ingestion stores the frequency count of the
regions' depth values and the frequency count of their `region_cat`
buckets, replacing any prior entries for that key; the stored counter is
the frequency count of its inputs, and for depths `[5, 5, 12]` it is
`{5: 2, 12: 1}`. -/
theorem c5_lowcoverage_aggregation (st : State) (s : String) (status : Int)
    (regs : List Region) (hne : regs ≠ []) :
    (parse_lowcoverage st s status (some regs)).2 = 1 ∧
    depthGet (parse_lowcoverage st s status (some regs)).1 s =
      some (counter (regs.map (fun r => Val.int r.depth))) ∧
    sizeGet (parse_lowcoverage st s status (some regs)).1 s =
      some (counter (regs.map (fun r => Val.str (region_cat r.start r.stop)))) ∧
    (∀ v : Val, (dget (counter (regs.map (fun r => Val.int r.depth))) v).getD 0 =
      freq (regs.map (fun r => Val.int r.depth)) v) ∧
    counter [Val.int 5, Val.int 5, Val.int 12] =
      [(Val.int 5, 2), (Val.int 12, 1)] := by
  refine ⟨rfl, ?_, ?_, ?_, by decide⟩
  · exact lcStep_depthGet_some st s status regs
  · exact lcStep_sizeGet_some st s status regs
  · intro v
    exact counter_freq _ v

/-- C5 witness: applied to regions with depths `[5, 5, 12]`. -/
theorem c5_witness :
    (parse_lowcoverage initState "S5" 1
      (some [⟨1, 9, 5⟩, ⟨20, 25, 5⟩, ⟨100, 220, 12⟩])).2 = 1 ∧
    depthGet (parse_lowcoverage initState "S5" 1
      (some [⟨1, 9, 5⟩, ⟨20, 25, 5⟩, ⟨100, 220, 12⟩])).1 "S5" =
      some (counter (([⟨1, 9, 5⟩, ⟨20, 25, 5⟩, ⟨100, 220, 12⟩] :
        List Region).map (fun r => Val.int r.depth))) ∧
    sizeGet (parse_lowcoverage initState "S5" 1
      (some [⟨1, 9, 5⟩, ⟨20, 25, 5⟩, ⟨100, 220, 12⟩])).1 "S5" =
      some (counter (([⟨1, 9, 5⟩, ⟨20, 25, 5⟩, ⟨100, 220, 12⟩] :
        List Region).map (fun r => Val.str (region_cat r.start r.stop)))) ∧
    (∀ v : Val, (dget (counter (([⟨1, 9, 5⟩, ⟨20, 25, 5⟩, ⟨100, 220, 12⟩] :
        List Region).map (fun r => Val.int r.depth))) v).getD 0 =
      freq (([⟨1, 9, 5⟩, ⟨20, 25, 5⟩, ⟨100, 220, 12⟩] :
        List Region).map (fun r => Val.int r.depth)) v) ∧
    counter [Val.int 5, Val.int 5, Val.int 12] =
      [(Val.int 5, 2), (Val.int 12, 1)] :=
  c5_lowcoverage_aggregation initState "S5" 1
    [⟨1, 9, 5⟩, ⟨20, 25, 5⟩, ⟨100, 220, 12⟩] (by decide)

/-- C2 counterexample: for a document whose `LowCoverageRegions` is
`[1, {}]` (no `failed` key), `parse_log` returns a count of 0 — the section
does not increment the count, contrary to the claim (though indeed no
depth or size entries are created). -/
theorem c2_counterexample :
    (parse_log initState "S2"
      ⟨none, some (1, none), none⟩).2.1 = 0 ∧
    ¬ ((parse_log initState "S2"
      ⟨none, some (1, none), none⟩).2.1 = 1) ∧
    depthGet (parse_log initState "S2" ⟨none, some (1, none), none⟩).1 "S2" =
      none ∧
    sizeGet (parse_log initState "S2" ⟨none, some (1, none), none⟩).1 "S2" =
      none := by
  decide

/-- C2 (amended): for a `LowCoverageRegions` section of the form
`[status, {}]` (no `failed` key), the parser still writes `status` into the
sample's general-stats row, creates no depth or size aggregation entries,
but returns 0 — such a section does not count toward the parsed-section
count (the file-level count is as if only the other sections were
present). -/
theorem c2_empty_lowcoverage (st : State) (s : String) (status : Int) :
    (parse_lowcoverage st s status none).2 = 0 ∧
    (parse_lowcoverage st s status none).1.vcpipe_lowcoverage_data =
      st.vcpipe_lowcoverage_data ∧
    rowGet (parse_lowcoverage st s status none).1 s "LowCoverageRegions" =
      some (Val.int status) ∧
    (∀ d : Document, d.LowCoverageRegions = some (status, none) →
      (parse_log st s d).2.1 =
        (if d.VcfQuality.isSome then 1 else 0) +
        (if d.BaseQuality.isSome then 1 else 0)) := by
  refine ⟨rfl, rfl, ?_, ?_⟩
  · exact mapRowGet_setRowField_self st.general_stats_data s
      "LowCoverageRegions" (Val.int status)
  · intro d hd
    rw [parse_log_n, secCount, hd]
    simp [lcCount]

/-- C2 witness: the amended statement at a concrete state and a document
with only an empty low-coverage section. -/
theorem c2_witness :
    (parse_log initState "S2w" ⟨none, some (4, none), none⟩).2.1 =
      (if (⟨none, some (4, none), none⟩ : Document).VcfQuality.isSome
        then 1 else 0) +
      (if (⟨none, some (4, none), none⟩ : Document).BaseQuality.isSome
        then 1 else 0) :=
  (c2_empty_lowcoverage initState "S2w" 4).2.2.2
    ⟨none, some (4, none), none⟩ rfl

/-- C8 counterexample: a present BaseQuality section `[7, {reads: 3}]` is
stored in the base-quality detail table as the bare data copy — the stored
entry has no `"status"` key, contrary to the claim that the full section
including the status is stored. -/
theorem c8_counterexample :
    dget (parse_basequality initState "S8" 7
      [("reads", Val.int 3)]).1.vcpipe_basequality_data "S8" =
      some [("reads", Val.int 3)] ∧
    dget ((dget (parse_basequality initState "S8" 7
      [("reads", Val.int 3)]).1.vcpipe_basequality_data "S8").getD [])
      "status" = none := by
  decide

/-- C8 (amended): for a present BaseQuality section `[status, data]`,
ingestion writes `status` into the sample's general-stats row under
`"BaseQuality"` and stores only the copy of `data` (without the status)
into the base-quality detail table, replacing any prior entry for that
key. -/
theorem c8_basequality_ingest (st : State) (s : String) (status : Int)
    (data : List (String × Val)) :
    (parse_basequality st s status data).2 = 1 ∧
    rowGet (parse_basequality st s status data).1 s "BaseQuality" =
      some (Val.int status) ∧
    dget (parse_basequality st s status data).1.vcpipe_basequality_data s =
      some data ∧
    (∀ d : Document, d.BaseQuality = some (status, data) →
      (parse_log st s d).1.vcpipe_basequality_data =
        dput st.vcpipe_basequality_data s data) := by
  refine ⟨rfl, ?_, ?_, ?_⟩
  · exact mapRowGet_setRowField_self st.general_stats_data s "BaseQuality"
      (Val.int status)
  · exact dget_dput_self _ _ _
  · intro d hd
    exact parse_log_bq_some st s d status data hd

/-- C8 witness: the amended statement applied to a concrete document. -/
theorem c8_witness :
    (parse_log initState "B8"
      ⟨none, none, some (2, [("reads", Val.int 9)])⟩).1.vcpipe_basequality_data =
      dput initState.vcpipe_basequality_data "B8" [("reads", Val.int 9)] :=
  (c8_basequality_ingest initState "B8" 2 [("reads", Val.int 9)]).2.2.2
    ⟨none, none, some (2, [("reads", Val.int 9)])⟩ rfl

/-- C1 counterexample: the first file's LowCoverageRegions carries a failed
region (depth 5); the second file's LowCoverageRegions is present but of the
form `[9, {}]` (no `failed` key).  After the second file, the depth and size
detail entries for the key are still the first file's — a section present in
the second file whose detail entries are not wholesale-replaced — even
though the second file's status 9 did overwrite the row column. -/
theorem c1_counterexample :
    depthGet (ingest2 initState "X1"
        ⟨none, some (0, some [⟨1, 3, 5⟩]), none⟩
        ⟨none, some (9, none), none⟩) "X1" = some [(Val.int 5, 1)] ∧
    ¬ (depthGet (ingest2 initState "X1"
        ⟨none, some (0, some [⟨1, 3, 5⟩]), none⟩
        ⟨none, some (9, none), none⟩) "X1" = none) ∧
    sizeGet (ingest2 initState "X1"
        ⟨none, some (0, some [⟨1, 3, 5⟩]), none⟩
        ⟨none, some (9, none), none⟩) "X1" = some [(Val.str "<10", 1)] ∧
    rowGet (ingest2 initState "X1"
        ⟨none, some (0, some [⟨1, 3, 5⟩]), none⟩
        ⟨none, some (9, none), none⟩) "X1" "LowCoverageRegions" =
      some (Val.int 9) := by
  decide

/-- C1 (amended): ingesting two files in sequence for the same sample key,
the second file's sections overwrite only the general-stats columns they
touch, and wholesale-replace the detail-table entries for the sections
present in the second file that produce entries — VcfQuality and BaseQuality
always, LowCoverageRegions exactly when its `failed` key is present; a
present LowCoverageRegions section without a `failed` key overwrites the row
status but leaves the prior depth/size detail entries in place — while
general-stats fields not touched by the second file's sections retain the
values they had after the first file. -/
theorem c1_second_file_overwrite (st0 : State) (s : String) (d1 d2 : Document) :
    (∀ c : String, touched d2 c = false →
      rowGet (ingest2 st0 s d1 d2) s c = rowGet (parse_log st0 s d1).1 s c) ∧
    (∀ (a : Int) (dt : List (String × Val)), d2.VcfQuality = some (a, dt) →
      rowGet (ingest2 st0 s d1 d2) s "VcfQuality" = some (Val.int a) ∧
      dget (ingest2 st0 s d1 d2).vcpipe_vcfquality_data s =
        some (dput dt "status" (Val.int a))) ∧
    (∀ (a : Int) (dt : List (String × Val)), d2.BaseQuality = some (a, dt) →
      rowGet (ingest2 st0 s d1 d2) s "BaseQuality" = some (Val.int a) ∧
      dget (ingest2 st0 s d1 d2).vcpipe_basequality_data s = some dt) ∧
    (∀ (a : Int) (regs : List Region),
      d2.LowCoverageRegions = some (a, some regs) →
      rowGet (ingest2 st0 s d1 d2) s "LowCoverageRegions" = some (Val.int a) ∧
      depthGet (ingest2 st0 s d1 d2) s =
        some (counter (regs.map (fun r => Val.int r.depth))) ∧
      sizeGet (ingest2 st0 s d1 d2) s =
        some (counter (regs.map (fun r => Val.str (region_cat r.start r.stop))))) ∧
    (∀ a : Int, d2.LowCoverageRegions = some (a, none) →
      rowGet (ingest2 st0 s d1 d2) s "LowCoverageRegions" = some (Val.int a) ∧
      (ingest2 st0 s d1 d2).vcpipe_lowcoverage_data =
        (parse_log st0 s d1).1.vcpipe_lowcoverage_data) := by
  refine ⟨?_, ?_, ?_, ?_, ?_⟩
  · intro c hc
    exact parse_log_rowGet_frame (parse_log st0 s d1).1 s c d2
      (parse_log_seen_self st0 s d1) hc
  · intro a dt h
    constructor
    · exact parse_log_rowGet_vcf (parse_log st0 s d1).1 s d2 a dt h
    · rw [show (ingest2 st0 s d1 d2).vcpipe_vcfquality_data =
        (parse_log (parse_log st0 s d1).1 s d2).1.vcpipe_vcfquality_data
        from rfl]
      rw [parse_log_vcfq_some (parse_log st0 s d1).1 s d2 a dt h]
      exact dget_dput_self _ _ _
  · intro a dt h
    constructor
    · exact parse_log_rowGet_bq (parse_log st0 s d1).1 s d2 a dt h
    · rw [show (ingest2 st0 s d1 d2).vcpipe_basequality_data =
        (parse_log (parse_log st0 s d1).1 s d2).1.vcpipe_basequality_data
        from rfl]
      rw [parse_log_bq_some (parse_log st0 s d1).1 s d2 a dt h]
      exact dget_dput_self _ _ _
  · intro a regs h
    refine ⟨?_, ?_, ?_⟩
    · exact parse_log_rowGet_lc (parse_log st0 s d1).1 s d2 a (some regs) h
    · exact parse_log_depthGet (parse_log st0 s d1).1 s d2 a regs h
    · exact parse_log_sizeGet (parse_log st0 s d1).1 s d2 a regs h
  · intro a h
    constructor
    · exact parse_log_rowGet_lc (parse_log st0 s d1).1 s d2 a none h
    · exact parse_log_lc_noneFailed (parse_log st0 s d1).1 s d2 a h

/-- C1 witness: first file contributes only VcfQuality, second only
BaseQuality; the untouched VcfQuality column is retained, the BaseQuality
column and detail entry are written; a further instance exercises the
retention conjunct for a second file whose LowCoverageRegions lacks a
`failed` key. -/
theorem c1_witness :
    rowGet (ingest2 initState "C1"
        ⟨some (7, [("variants", Val.int 4)]), none, none⟩
        ⟨none, none, some (3, [("reads", Val.int 9)])⟩) "C1" "VcfQuality" =
      rowGet (parse_log initState "C1"
        ⟨some (7, [("variants", Val.int 4)]), none, none⟩).1 "C1" "VcfQuality" ∧
    (rowGet (ingest2 initState "C1"
        ⟨some (7, [("variants", Val.int 4)]), none, none⟩
        ⟨none, none, some (3, [("reads", Val.int 9)])⟩) "C1" "BaseQuality" =
      some (Val.int 3) ∧
    dget (ingest2 initState "C1"
        ⟨some (7, [("variants", Val.int 4)]), none, none⟩
        ⟨none, none, some (3, [("reads", Val.int 9)])⟩).vcpipe_basequality_data
      "C1" = some [("reads", Val.int 9)]) ∧
    (rowGet (ingest2 initState "C1b"
        ⟨none, some (0, some [⟨1, 3, 5⟩]), none⟩
        ⟨none, some (9, none), none⟩) "C1b" "LowCoverageRegions" =
      some (Val.int 9) ∧
    (ingest2 initState "C1b"
        ⟨none, some (0, some [⟨1, 3, 5⟩]), none⟩
        ⟨none, some (9, none), none⟩).vcpipe_lowcoverage_data =
      (parse_log initState "C1b"
        ⟨none, some (0, some [⟨1, 3, 5⟩]),
          none⟩).1.vcpipe_lowcoverage_data) :=
  ⟨(c1_second_file_overwrite initState "C1"
      ⟨some (7, [("variants", Val.int 4)]), none, none⟩
      ⟨none, none, some (3, [("reads", Val.int 9)])⟩).1 "VcfQuality" (by decide),
   (c1_second_file_overwrite initState "C1"
      ⟨some (7, [("variants", Val.int 4)]), none, none⟩
      ⟨none, none, some (3, [("reads", Val.int 9)])⟩).2.2.1 3
      [("reads", Val.int 9)] rfl,
   (c1_second_file_overwrite initState "C1b"
      ⟨none, some (0, some [⟨1, 3, 5⟩]), none⟩
      ⟨none, some (9, none), none⟩).2.2.2.2 9 rfl⟩

/-- C7 counterexample: after a second file (containing only BaseQuality) for
the same key, the first file's VcfQuality detail entry and general-stats
value survive — the second file does not fully replace the prior
GeneralStatsRow and per-section entries. -/
theorem c7_counterexample :
    dget (ingest2 initState "S7"
        ⟨some (7, [("variants", Val.int 4)]), none, none⟩
        ⟨none, none, some (3, [("reads", Val.int 9)])⟩).vcpipe_vcfquality_data
      "S7" = some [("variants", Val.int 4), ("status", Val.int 7)] ∧
    ¬ (dget (ingest2 initState "S7"
        ⟨some (7, [("variants", Val.int 4)]), none, none⟩
        ⟨none, none, some (3, [("reads", Val.int 9)])⟩).vcpipe_vcfquality_data
      "S7" = none) ∧
    rowGet (ingest2 initState "S7"
        ⟨some (7, [("variants", Val.int 4)]), none, none⟩
        ⟨none, none, some (3, [("reads", Val.int 9)])⟩) "S7" "VcfQuality" =
      some (Val.int 7) := by
  decide

/-- C7 (amended): within a run, a second file for the same key replaces the
general-stats fields and detail-table entries only for the sections it
contains; for each section absent from the second file, the first file's
detail table and general-stats value for that key are retained (a
section-level merge, not a full replacement). -/
theorem c7_section_replacement (st0 : State) (s : String) (d1 d2 : Document) :
    (d2.VcfQuality = none →
      (ingest2 st0 s d1 d2).vcpipe_vcfquality_data =
        (parse_log st0 s d1).1.vcpipe_vcfquality_data ∧
      rowGet (ingest2 st0 s d1 d2) s "VcfQuality" =
        rowGet (parse_log st0 s d1).1 s "VcfQuality") ∧
    (d2.BaseQuality = none →
      (ingest2 st0 s d1 d2).vcpipe_basequality_data =
        (parse_log st0 s d1).1.vcpipe_basequality_data ∧
      rowGet (ingest2 st0 s d1 d2) s "BaseQuality" =
        rowGet (parse_log st0 s d1).1 s "BaseQuality") ∧
    (d2.LowCoverageRegions = none →
      (ingest2 st0 s d1 d2).vcpipe_lowcoverage_data =
        (parse_log st0 s d1).1.vcpipe_lowcoverage_data ∧
      rowGet (ingest2 st0 s d1 d2) s "LowCoverageRegions" =
        rowGet (parse_log st0 s d1).1 s "LowCoverageRegions") := by
  refine ⟨?_, ?_, ?_⟩
  · intro h
    constructor
    · exact parse_log_vcfq_none (parse_log st0 s d1).1 s d2 h
    · exact parse_log_rowGet_frame (parse_log st0 s d1).1 s "VcfQuality" d2
        (parse_log_seen_self st0 s d1) (by simp [touched, h])
  · intro h
    constructor
    · exact parse_log_bq_none (parse_log st0 s d1).1 s d2 h
    · exact parse_log_rowGet_frame (parse_log st0 s d1).1 s "BaseQuality" d2
        (parse_log_seen_self st0 s d1) (by simp [touched, h])
  · intro h
    constructor
    · exact parse_log_lc_none (parse_log st0 s d1).1 s d2 h
    · exact parse_log_rowGet_frame (parse_log st0 s d1).1 s
        "LowCoverageRegions" d2
        (parse_log_seen_self st0 s d1) (by simp [touched, h])

/-- C7 witness: the retention part applied to a concrete pair of files where
the second lacks VcfQuality. -/
theorem c7_witness :
    (ingest2 initState "S7w"
        ⟨some (7, [("variants", Val.int 4)]), none, none⟩
        ⟨none, none, some (3, [("reads", Val.int 9)])⟩).vcpipe_vcfquality_data =
      (parse_log initState "S7w"
        ⟨some (7, [("variants", Val.int 4)]), none, none⟩).1.vcpipe_vcfquality_data ∧
    rowGet (ingest2 initState "S7w"
        ⟨some (7, [("variants", Val.int 4)]), none, none⟩
        ⟨none, none, some (3, [("reads", Val.int 9)])⟩) "S7w" "VcfQuality" =
      rowGet (parse_log initState "S7w"
        ⟨some (7, [("variants", Val.int 4)]), none, none⟩).1 "S7w" "VcfQuality" :=
  (c7_section_replacement initState "S7w"
      ⟨some (7, [("variants", Val.int 4)]), none, none⟩
      ⟨none, none, some (3, [("reads", Val.int 9)])⟩).1 rfl

/-- C4 counterexample: a document containing only the other two sections
(VcfQuality present, LowCoverageRegions present as `[0, {}]` with no
`failed` key, BaseQuality missing) yields a parsed count of 1, not the
claimed 2, because the low-coverage branch returns 0 for a missing `failed`
key; the single missing-key diagnostic part holds. -/
theorem c4_counterexample :
    (parse_log initState "X4"
      ⟨some (1, []), some (0, none), none⟩).2.1 = 1 ∧
    ¬ ((parse_log initState "X4"
      ⟨some (1, []), some (0, none), none⟩).2.1 = 2) ∧
    (parse_log initState "X4"
      ⟨some (1, []), some (0, none), none⟩).2.2 = 1 := by
  decide

/-- C4 (amended): for each of the three recognized section keys, a document
in which the key is absent (or null) yields one non-fatal missing-key
diagnostic per missing key, leaves that section's detail table untouched,
and does not count the section; a document containing only the other two
sections yields a parsed count of 2 with one missing-key diagnostic
provided each present section counts — i.e. when a present
LowCoverageRegions section has its `failed` key — while a document whose
LowCoverageRegions is of the form `[status, {}]` and whose BaseQuality is
missing yields a parsed count of 1 with one missing-key diagnostic. -/
theorem c4_missing_key (st : State) (s : String) (d : Document) :
    (parse_log st s d).2.2 = sectionErrs d ∧
    (d.VcfQuality = none →
      (parse_log st s d).1.vcpipe_vcfquality_data = st.vcpipe_vcfquality_data) ∧
    (d.LowCoverageRegions = none →
      (parse_log st s d).1.vcpipe_lowcoverage_data =
        st.vcpipe_lowcoverage_data) ∧
    (d.BaseQuality = none →
      (parse_log st s d).1.vcpipe_basequality_data =
        st.vcpipe_basequality_data) ∧
    (∀ (a1 : Int) (dt1 : List (String × Val)) (a2 : Int) (regs : List Region),
      d.VcfQuality = some (a1, dt1) →
      d.LowCoverageRegions = some (a2, some regs) → d.BaseQuality = none →
      (parse_log st s d).2.1 = 2 ∧ (parse_log st s d).2.2 = 1) ∧
    (∀ (a2 : Int) (regs : List Region) (a3 : Int) (dt3 : List (String × Val)),
      d.VcfQuality = none →
      d.LowCoverageRegions = some (a2, some regs) →
      d.BaseQuality = some (a3, dt3) →
      (parse_log st s d).2.1 = 2 ∧ (parse_log st s d).2.2 = 1) ∧
    (∀ (a1 : Int) (dt1 : List (String × Val)) (a3 : Int)
      (dt3 : List (String × Val)),
      d.VcfQuality = some (a1, dt1) → d.LowCoverageRegions = none →
      d.BaseQuality = some (a3, dt3) →
      (parse_log st s d).2.1 = 2 ∧ (parse_log st s d).2.2 = 1) ∧
    (∀ (a1 : Int) (dt1 : List (String × Val)) (a2 : Int),
      d.VcfQuality = some (a1, dt1) →
      d.LowCoverageRegions = some (a2, none) → d.BaseQuality = none →
      (parse_log st s d).2.1 = 1 ∧ (parse_log st s d).2.2 = 1) := by
  refine ⟨parse_log_errs st s d, ?_, ?_, ?_, ?_, ?_, ?_, ?_⟩
  · exact parse_log_vcfq_none st s d
  · exact parse_log_lc_none st s d
  · exact parse_log_bq_none st s d
  · intro a1 dt1 a2 regs hv hl hb
    constructor
    · rw [parse_log_n, secCount, hv, hl, hb]
      simp [lcCount]
    · rw [parse_log_errs, sectionErrs, hv, hl, hb]
      simp
  · intro a2 regs a3 dt3 hv hl hb
    constructor
    · rw [parse_log_n, secCount, hv, hl, hb]
      simp [lcCount]
    · rw [parse_log_errs, sectionErrs, hv, hl, hb]
      simp
  · intro a1 dt1 a3 dt3 hv hl hb
    constructor
    · rw [parse_log_n, secCount, hv, hl, hb]
      simp [lcCount]
    · rw [parse_log_errs, sectionErrs, hv, hl, hb]
      simp
  · intro a1 dt1 a2 hv hl hb
    constructor
    · rw [parse_log_n, secCount, hv, hl, hb]
      simp [lcCount]
    · rw [parse_log_errs, sectionErrs, hv, hl, hb]
      simp

/-- C4 witness: a concrete document missing only BaseQuality with a failed
low-coverage list (count 2), and one whose low-coverage section lacks the
`failed` key (count 1). -/
theorem c4_witness :
    ((parse_log initState "S4"
      ⟨some (1, []), some (0, some [⟨1, 3, 2⟩]), none⟩).2.1 = 2 ∧
    (parse_log initState "S4"
      ⟨some (1, []), some (0, some [⟨1, 3, 2⟩]), none⟩).2.2 = 1) ∧
    (parse_log initState "S4b"
      ⟨some (1, []), some (0, none), none⟩).2.1 = 1 ∧
    (parse_log initState "S4b"
      ⟨some (1, []), some (0, none), none⟩).2.2 = 1 :=
  ⟨(c4_missing_key initState "S4"
      ⟨some (1, []), some (0, some [⟨1, 3, 2⟩]), none⟩).2.2.2.2.1
    1 [] 0 [⟨1, 3, 2⟩] rfl rfl rfl,
   (c4_missing_key initState "S4b"
      ⟨some (1, []), some (0, none), none⟩).2.2.2.2.2.2.2
    1 [] 0 rfl rfl rfl⟩

/-- C6 counterexample: the path `"aDiag-b/Diag-X/"` contains the segment
`"Diag-X/"`, yet extraction returns `"b"` (the leftmost match), not `"X"` —
the claim fails for paths with an earlier completing `Diag-` marker. -/
theorem c6_counterexample :
    "aDiag-b/Diag-X/" = "aDiag-b/" ++ "Diag-X/" ∧
    extract "aDiag-b/Diag-X/" = some "b" ∧
    ¬ (extract "aDiag-b/Diag-X/" = some "X") := by
  refine ⟨rfl, ?_, ?_⟩ <;> decide

/-- C6 (amended): extraction returns the group of the leftmost completing
match: for every path `p ++ "Diag-" ++ id ++ "/" ++ q` where no position
inside `p` starts a `Diag-` occurrence and `id` is non-empty without `/` or
newline, the search returns `id`; and when the search finds no marker at
all the driver loop aborts the whole batch with an error (no later file is
processed). -/
theorem c6_extraction_leftmost :
    (∀ (p idc q : List Char),
      cleanPrefix (diagMarker ++ (idc ++ '/' :: q)) p = true →
      idc ≠ [] → '/' ∉ idc → '\n' ∉ idc →
      searchDiag (p ++ (diagMarker ++ (idc ++ '/' :: q))) = some idc) ∧
    (∀ (st : State) (f : LogFile) (fs : List LogFile),
      searchDiag f.root.toList = none →
      runFiles st (f :: fs) = Except.error (pathError f.root)) := by
  constructor
  · intro p idc q hcp hne h1 h2
    rw [searchDiag_cleanPrefix p _ hcp]
    exact searchDiag_marker idc q hne h1 h2
  · intro st f fs h
    exact runFiles_error st f fs h

/-- C6 witness: extraction on `"x/Diag-S1/r"` yields `"S1"`, and a batch
whose first file has no marker aborts before the second file. -/
theorem c6_witness :
    searchDiag (['x', '/'] ++ (diagMarker ++ (['S', '1'] ++ '/' :: ['r']))) =
      some ['S', '1'] ∧
    runFiles initState
        [⟨"noMarkerHere", ⟨none, none, none⟩⟩,
         ⟨"Diag-A/x", ⟨none, none, none⟩⟩] =
      Except.error (pathError "noMarkerHere") :=
  ⟨c6_extraction_leftmost.1 ['x', '/'] ['S', '1'] ['r']
      (by decide) (by decide) (by decide) (by decide),
   c6_extraction_leftmost.2 initState ⟨"noMarkerHere", ⟨none, none, none⟩⟩
      [⟨"Diag-A/x", ⟨none, none, none⟩⟩] (by decide)⟩

/-- C9: the low-coverage emission guard `len(vcpipe_lowcoverage_data) > 0`
is evaluated on the outer dict, which always holds the two fixed keys
`depth` and `size`; on a run with no files (no sample contributed any
low-coverage data) the guard is still true and the low-coverage output is
emitted, while the VCF-quality and base-quality guards are correctly
false. -/
theorem c9_lowcoverage_guard_always_true :
    runFiles initState [] = Except.ok initState ∧
    emits_lowcoverage initState = true ∧
    emits_vcfquality initState = false ∧
    emits_basequality initState = false ∧
    initState.vcpipe_lowcoverage_data = [("depth", []), ("size", [])] := by
  refine ⟨rfl, ?_, ?_, ?_, ?_⟩ <;> decide

/-- C10: a file whose JSON contains none of the three section keys still
marks its (fresh) sample key as seen and creates an empty general-stats row
for it, returns a count of 0, and leaves the data-source registry
unchanged — registration happens in the driver loop only when the count is
positive. -/
theorem c10_zero_section_file (st : State) (s : String) (d : Document)
    (h0 : st.vcpipe_seen.contains s = false)
    (h1 : d.VcfQuality = none) (h2 : d.LowCoverageRegions = none)
    (h3 : d.BaseQuality = none) :
    (parse_log st s d).2.1 = 0 ∧
    dget (parse_log st s d).1.general_stats_data s = some [] ∧
    (parse_log st s d).1.vcpipe_seen.contains s = true ∧
    (parse_log st s d).1.data_sources = st.data_sources ∧
    (∀ (f : LogFile) (cap : List Char) (fs : List LogFile),
      searchDiag f.root.toList = some cap →
      (parse_log st (clean_s_name (String.mk cap) f.root) f.body).2.1 = 0 →
      runFiles st (f :: fs) =
        runFiles (parse_log st (clean_s_name (String.mk cap) f.root)
          f.body).1 fs) := by
  refine ⟨?_, ?_, parse_log_seen_self st s d, parse_log_ds st s d, ?_⟩
  · rw [parse_log_n, secCount, h1, h2, h3]
    simp [lcCount]
  · rw [parse_log_fst, h1, h2, h3, bqStep_none_state, lcStep_none_state,
      vcfStep_none_state, preSt_gsd_new st s h0]
    exact dget_dput_self _ _ _
  · intro f cap fs hs hn
    exact runFiles_cons_zero st f fs cap hs hn

/-- C10 witness: a zero-section file for a fresh key `T0`, and its
non-registration in the driver loop. -/
theorem c10_witness :
    (parse_log initState "T0" ⟨none, none, none⟩).2.1 = 0 ∧
    dget (parse_log initState "T0" ⟨none, none, none⟩).1.general_stats_data
      "T0" = some [] ∧
    runFiles initState [⟨"Diag-T0/x", ⟨none, none, none⟩⟩] =
      runFiles (parse_log initState
        (clean_s_name (String.mk ['T', '0']) "Diag-T0/x")
        ⟨none, none, none⟩).1 [] :=
  ⟨(c10_zero_section_file initState "T0" ⟨none, none, none⟩
      (by decide) rfl rfl rfl).1,
   (c10_zero_section_file initState "T0" ⟨none, none, none⟩
      (by decide) rfl rfl rfl).2.1,
   (c10_zero_section_file initState "T0" ⟨none, none, none⟩
      (by decide) rfl rfl rfl).2.2.2.2
     ⟨"Diag-T0/x", ⟨none, none, none⟩⟩ ['T', '0'] [] (by decide) (by decide)⟩
